import Mathlib

/-!
Verification development for the parametric-building-studio configurator
(`src/agentic-app/src/app/page.tsx`): the configuration model, the
Blender-script compiler (`generateBlenderScript`), the keyword intent mapper
(`applyAiInference`), and the configuration merge (`updateConfig`).

JavaScript numbers are modelled exactly as fractions of integers
(`JsNumber`): every numeric value manipulated by the program is a decimal
literal or the result of `+`, `*`, `/`, comparisons, `Math.floor`-style
operations on such literals, so exact rational arithmetic coincides with the
double arithmetic the program performs on the inputs the claims mention.
Denominators of all values built by the embedded code are positive;
lemmas that need this carry it as a hypothesis.

Strings are modelled as Lean `String` / `List Char`.
-/

/-- Exact model of a JavaScript number: an integer fraction `num / den`.
All values constructed by the embedded program have `0 < den`. -/
structure JsNumber where
  num : Int
  den : Int
deriving DecidableEq

instance (n : Nat) : OfNat JsNumber n := ⟨⟨n, 1⟩⟩

/-- `10 ^ k` as an integer (structural, kernel-friendly). -/
def tenPow : Nat → Int
  | 0 => 1
  | k + 1 => 10 * tenPow k

instance : OfScientific JsNumber :=
  ⟨fun m b e => if b then ⟨(m : Int), tenPow e⟩ else ⟨(m : Int) * tenPow e, 1⟩⟩

instance : IntCast JsNumber := ⟨fun i => ⟨i, 1⟩⟩

instance : NatCast JsNumber := ⟨fun n => ⟨(n : Int), 1⟩⟩

namespace JsNumber

/-- `a <= b` on JS numbers (valid when both denominators are positive). -/
def leb (a b : JsNumber) : Bool := decide (a.num * b.den ≤ b.num * a.den)

/-- `a < b` on JS numbers (valid when both denominators are positive). -/
def ltb (a b : JsNumber) : Bool := decide (a.num * b.den < b.num * a.den)

/-- Exact addition. -/
def add (a b : JsNumber) : JsNumber := ⟨a.num * b.den + b.num * a.den, a.den * b.den⟩

/-- Exact multiplication. -/
def mul (a b : JsNumber) : JsNumber := ⟨a.num * b.num, a.den * b.den⟩

/-- Exact division (sign moved to the numerator so the denominator stays
positive whenever both inputs have positive denominator and `b ≠ 0`). -/
def div (a b : JsNumber) : JsNumber :=
  if b.num < 0 then ⟨-(a.num * b.den), -(a.den * b.num)⟩ else ⟨a.num * b.den, a.den * b.num⟩

/-- Negation. -/
def neg (a : JsNumber) : JsNumber := ⟨-a.num, a.den⟩

instance : Add JsNumber := ⟨add⟩
instance : Mul JsNumber := ⟨mul⟩
instance : Div JsNumber := ⟨div⟩
instance : Neg JsNumber := ⟨neg⟩

/-- `Math.floor` (also Python float floor-division once divided): for a
positive denominator `Int.fdiv` is the floor of the fraction. -/
def floorJs (a : JsNumber) : Int := Int.fdiv a.num a.den

/-- `Number.isInteger`: the value has no fractional part. -/
def isInt (a : JsNumber) : Bool := decide (a.num % a.den = 0)

/-- `Math.min`. -/
def mathMin (a b : JsNumber) : JsNumber := if leb a b then a else b

/-- `Math.max`. -/
def mathMax (a b : JsNumber) : JsNumber := if leb a b then b else a

end JsNumber

open JsNumber

/-- `const clamp = (value, min, max) => Math.min(Math.max(value, min), max)`. -/
def clamp (value mn mx : JsNumber) : JsNumber := mathMin (mathMax value mn) mx

/-- The decimal digit characters. -/
def digitChar (n : Nat) : Char :=
  match n with
  | 0 => '0' | 1 => '1' | 2 => '2' | 3 => '3' | 4 => '4'
  | 5 => '5' | 6 => '6' | 7 => '7' | 8 => '8' | _ => '9'

/-- Fuel-driven base-10 digit rendering (structural recursion so the kernel
can evaluate it; the fuel never runs out when it starts at `n + 1`). -/
def natCharsAux : Nat → Nat → List Char
  | 0, _ => []
  | fuel + 1, n =>
    if n < 10 then [digitChar n] else natCharsAux fuel (n / 10) ++ [digitChar (n % 10)]

/-- Base-10 digit string of a natural number (most significant first). -/
def natChars (n : Nat) : List Char := natCharsAux (n + 1) n


/-- Digit string of an integer, with a leading minus sign when negative. -/
def intChars (i : Int) : List Char :=
  if i < 0 then '-' :: natChars i.natAbs else natChars i.natAbs

/-- Left-pad a digit string with zeros to length `k`. -/
def padZeros (k : Nat) (l : List Char) : List Char :=
  List.replicate (k - l.length) '0' ++ l

/-- `toFixed k` on a nonnegative JS number: round to `k` decimals picking the
larger integer on ties (the ECMAScript rule), then print with exactly `k`
digits after the point (no point when `k = 0`). -/
def toFixedPos (k : Nat) (q : JsNumber) : List Char :=
  let n : Int := Int.fdiv (2 * q.num * tenPow k + q.den) (2 * q.den)
  let m : Nat := n.toNat
  if k = 0 then natChars m
  else natChars (m / (tenPow k).toNat) ++ '.' :: padZeros k (natChars (m % (tenPow k).toNat))

/-- `toFixed k` on any JS number: ECMAScript first splits off the sign. -/
def toFixedChars (k : Nat) (q : JsNumber) : List Char :=
  if ltb q 0 then '-' :: toFixedPos k (JsNumber.neg q) else toFixedPos k q

/-- `const formatNumber = (value) =>
      Number.isInteger(value) ? value.toFixed(0) : value.toFixed(2)`. -/
def formatNumber (value : JsNumber) : String :=
  if isInt value then ⟨toFixedChars 0 value⟩ else ⟨toFixedChars 2 value⟩

/-- One pass of `String.prototype.replace` with a global single-character
pattern: every occurrence of `target` becomes `rep`. -/
def replaceAllChar (target : Char) (rep : List Char) : List Char → List Char
  | [] => []
  | c :: t => (if c = target then rep else [c]) ++ replaceAllChar target rep t

/-- `const escapePythonString = (value) =>
      value.replace(/\\/g, "\\\\").replace(/"/g, '\\"')`:
backslashes doubled first, then double quotes escaped. -/
def escapePythonChars (l : List Char) : List Char :=
  replaceAllChar '"' ['\\', '"'] (replaceAllChar '\\' ['\\', '\\'] l)

/-- String-typed wrapper of `escapePythonChars`. -/
def escapePythonString (value : String) : String := ⟨escapePythonChars value.data⟩

/-- Remove the first occurrence of a character, as `String.replace("#", "")`
does with a non-global pattern. -/
def removeFirst (target : Char) : List Char → List Char
  | [] => []
  | c :: t => if c = target then t else c :: removeFirst target t

/-- Hex digit test for the JS `parseInt(-, 16)` model. -/
def isHexDig (c : Char) : Bool :=
  (48 ≤ c.toNat && c.toNat ≤ 57) || (97 ≤ c.toNat && c.toNat ≤ 102) ||
    (65 ≤ c.toNat && c.toNat ≤ 70)

/-- Value of a hex digit (0 for non-digits; only applied to hex digits). -/
def hexVal (c : Char) : Nat :=
  if 48 ≤ c.toNat && c.toNat ≤ 57 then c.toNat - 48
  else if 97 ≤ c.toNat && c.toNat ≤ 102 then c.toNat - 87
  else if 65 ≤ c.toNat && c.toNat ≤ 70 then c.toNat - 55
  else 0

/-- `parseInt(s, 16)`: parse the longest leading run of hex digits; `none`
models the `NaN` result on an empty run. -/
def parseIntHex (l : List Char) : Option Nat :=
  let ds := l.takeWhile isHexDig
  if ds.isEmpty then none else some (ds.foldl (fun a c => a * 16 + hexVal c) 0)

/-- Split a character list into chunks of at most two, as the regex match
`/.{1,2}/g` does. -/
def chunkPairs : List Char → List (List Char)
  | [] => []
  | [a] => [[a]]
  | a :: b :: rest => [a, b] :: chunkPairs rest

/-- `hexToRgb`: strip one `#`, expand 3-digit shorthand by duplicating each
digit, otherwise chunk into byte pairs (with the `?? ["00","00","00"]`
fallback when the match on the empty string returns null), then parse each
chunk; `none` stands for `NaN`/`undefined` channels. -/
def hexToRgb (hex : String) : Option Nat × Option Nat × Option Nat :=
  let cleaned := removeFirst '#' hex.data
  let chunk : List (List Char) :=
    if cleaned.length = 3 then cleaned.map (fun c => [c, c])
    else if cleaned.isEmpty then [['0', '0'], ['0', '0'], ['0', '0']]
    else chunkPairs cleaned
  let parsed := chunk.map parseIntHex
  ((parsed.get? 0).join, (parsed.get? 1).join, (parsed.get? 2).join)

/-- One colour channel of `colorToPythonTuple`:
`(channel / 255).toFixed(4)`, with `NaN` for a missing channel. -/
def normalizeChannel (c : Option Nat) : List Char :=
  match c with
  | some v => toFixedChars 4 (JsNumber.div ⟨(v : Int), 1⟩ ⟨255, 1⟩)
  | none => ['N', 'a', 'N']

/-- `colorToPythonTuple`: `"(r, g, b, 1.0)"` with 4-decimal channels. -/
def colorToPythonTuple (hex : String) : String :=
  let (r, g, b) := hexToRgb hex
  ⟨'(' :: normalizeChannel r ++ ',' :: ' ' :: normalizeChannel g ++
    ',' :: ' ' :: normalizeChannel b ++ ',' :: ' ' :: ['1', '.', '0', ')']⟩

/-- `type FacadePattern = "grid" | "stacked" | "offset"`. -/
inductive FacadePattern
  | grid | stacked | offset
deriving DecidableEq

/-- `type BalconyFrequency = "none" | "alternate" | "every" | "corners"`. -/
inductive BalconyFrequency
  | none | alternate | every | corners
deriving DecidableEq

/-- `type RoofStyle = "flat" | "pitched" | "sawtooth"`. -/
inductive RoofStyle
  | flat | pitched | sawtooth
deriving DecidableEq

/-- The five-colour palette sub-record of the configuration. -/
structure Colors where
  base : String
  accent : String
  glazing : String
  balcony : String
  roof : String
deriving DecidableEq

/-- `type BuildingConfig`: the flat configuration record. -/
structure BuildingConfig where
  projectName : String
  narrative : String
  floors : JsNumber
  floorHeight : JsNumber
  lobbyHeight : JsNumber
  width : JsNumber
  depth : JsNumber
  coreWidth : JsNumber
  coreDepth : JsNumber
  baseHeight : JsNumber
  structuralGrid : JsNumber
  unitsPerFloor : JsNumber
  facadePattern : FacadePattern
  windowModule : JsNumber
  windowWidth : JsNumber
  windowHeight : JsNumber
  spandrelHeight : JsNumber
  balconyDepth : JsNumber
  balconyFrequency : BalconyFrequency
  roofStyle : RoofStyle
  podiumLevels : JsNumber
  podiumSetback : JsNumber
  includePodium : Bool
  hasAtrium : Bool
  addRooftopGarden : Bool
  includeSolarPanels : Bool
  includeLightShelves : Bool
  colors : Colors
deriving DecidableEq

/-- `const defaultConfig : BuildingConfig`. -/
def defaultConfig : BuildingConfig where
  projectName := "Aurora Habitat Tower"
  narrative := "A mixed-use tower prioritizing daylight, biophilic terraces, and a flexible core for future adaptation."
  floors := 18
  floorHeight := 3.6
  lobbyHeight := 6
  width := 38
  depth := 26
  coreWidth := 10
  coreDepth := 8
  baseHeight := 1.2
  structuralGrid := 7.5
  unitsPerFloor := 8
  facadePattern := .grid
  windowModule := 3.2
  windowWidth := 2.6
  windowHeight := 2.4
  spandrelHeight := 0.8
  balconyDepth := 2.1
  balconyFrequency := .alternate
  roofStyle := .flat
  podiumLevels := 3
  podiumSetback := 4
  includePodium := true
  hasAtrium := true
  addRooftopGarden := true
  includeSolarPanels := true
  includeLightShelves := false
  colors :=
    { base := "#4d5c6f"
      accent := "#c48f5a"
      glazing := "#85c3ff"
      balcony := "#f2ede4"
      roof := "#37414f" }

/-- A runtime overlay for the colour sub-record: present keys replace,
absent keys are left alone (the `...(partial.colors ?? {})` spread). -/
structure ColorsOverlay where
  base : Option String := none
  accent : Option String := none
  glazing : Option String := none
  balcony : Option String := none
  roof : Option String := none
deriving DecidableEq

/-- `Partial<BuildingConfig>`: fields absent from the overlay are `none`. -/
structure ConfigOverlay where
  projectName : Option String := none
  narrative : Option String := none
  floors : Option JsNumber := none
  floorHeight : Option JsNumber := none
  lobbyHeight : Option JsNumber := none
  width : Option JsNumber := none
  depth : Option JsNumber := none
  coreWidth : Option JsNumber := none
  coreDepth : Option JsNumber := none
  baseHeight : Option JsNumber := none
  structuralGrid : Option JsNumber := none
  unitsPerFloor : Option JsNumber := none
  facadePattern : Option FacadePattern := none
  windowModule : Option JsNumber := none
  windowWidth : Option JsNumber := none
  windowHeight : Option JsNumber := none
  spandrelHeight : Option JsNumber := none
  balconyDepth : Option JsNumber := none
  balconyFrequency : Option BalconyFrequency := none
  roofStyle : Option RoofStyle := none
  podiumLevels : Option JsNumber := none
  podiumSetback : Option JsNumber := none
  includePodium : Option Bool := none
  hasAtrium : Option Bool := none
  addRooftopGarden : Option Bool := none
  includeSolarPanels : Option Bool := none
  includeLightShelves : Option Bool := none
  colors : Option ColorsOverlay := none
deriving DecidableEq

/-- `updateConfig`: `setConfig(prev => ({...prev, ...partial, colors:
{...prev.colors, ...(partial.colors ?? {})}}))` — top-level fields present in
the overlay replace the old value, the colour sub-record is merged
key-by-key. -/
def updateConfig (prev : BuildingConfig) (p : ConfigOverlay) : BuildingConfig where
  projectName := p.projectName.getD prev.projectName
  narrative := p.narrative.getD prev.narrative
  floors := p.floors.getD prev.floors
  floorHeight := p.floorHeight.getD prev.floorHeight
  lobbyHeight := p.lobbyHeight.getD prev.lobbyHeight
  width := p.width.getD prev.width
  depth := p.depth.getD prev.depth
  coreWidth := p.coreWidth.getD prev.coreWidth
  coreDepth := p.coreDepth.getD prev.coreDepth
  baseHeight := p.baseHeight.getD prev.baseHeight
  structuralGrid := p.structuralGrid.getD prev.structuralGrid
  unitsPerFloor := p.unitsPerFloor.getD prev.unitsPerFloor
  facadePattern := p.facadePattern.getD prev.facadePattern
  windowModule := p.windowModule.getD prev.windowModule
  windowWidth := p.windowWidth.getD prev.windowWidth
  windowHeight := p.windowHeight.getD prev.windowHeight
  spandrelHeight := p.spandrelHeight.getD prev.spandrelHeight
  balconyDepth := p.balconyDepth.getD prev.balconyDepth
  balconyFrequency := p.balconyFrequency.getD prev.balconyFrequency
  roofStyle := p.roofStyle.getD prev.roofStyle
  podiumLevels := p.podiumLevels.getD prev.podiumLevels
  podiumSetback := p.podiumSetback.getD prev.podiumSetback
  includePodium := p.includePodium.getD prev.includePodium
  hasAtrium := p.hasAtrium.getD prev.hasAtrium
  addRooftopGarden := p.addRooftopGarden.getD prev.addRooftopGarden
  includeSolarPanels := p.includeSolarPanels.getD prev.includeSolarPanels
  includeLightShelves := p.includeLightShelves.getD prev.includeLightShelves
  colors :=
    { base := ((p.colors.bind ColorsOverlay.base).getD prev.colors.base)
      accent := ((p.colors.bind ColorsOverlay.accent).getD prev.colors.accent)
      glazing := ((p.colors.bind ColorsOverlay.glazing).getD prev.colors.glazing)
      balcony := ((p.colors.bind ColorsOverlay.balcony).getD prev.colors.balcony)
      roof := ((p.colors.bind ColorsOverlay.roof).getD prev.colors.roof) }

/-- Literal spelling of a facade pattern. -/
def facadePatternStr : FacadePattern → String
  | .grid => "grid" | .stacked => "stacked" | .offset => "offset"

/-- Literal spelling of a balcony frequency. -/
def balconyFrequencyStr : BalconyFrequency → String
  | .none => "none" | .alternate => "alternate" | .every => "every" | .corners => "corners"

/-- Literal spelling of a roof style. -/
def roofStyleStr : RoofStyle → String
  | .flat => "flat" | .pitched => "pitched" | .sawtooth => "sawtooth"

/-- `const pythonBoolean = (value) => (value ? "True" : "False")`. -/
def pythonBoolean (value : Bool) : String := if value then "True" else "False"

/-- The `dimsPython` block of `generateBlenderScript` (joined with `\n`). -/
def dimsPython (config : BuildingConfig) : String :=
  String.intercalate "\n"
    [ "\x7b",
      "        \"width\": " ++ formatNumber config.width ++ ",",
      "        \"depth\": " ++ formatNumber config.depth ++ ",",
      "        \"floor_height\": " ++ formatNumber config.floorHeight ++ ",",
      "        \"lobby_height\": " ++ formatNumber config.lobbyHeight ++ ",",
      "        \"base_height\": " ++ formatNumber config.baseHeight ++ ",",
      "        \"core_width\": " ++ formatNumber config.coreWidth ++ ",",
      "        \"core_depth\": " ++ formatNumber config.coreDepth ++ ",",
      "        \"podium_levels\": " ++ formatNumber config.podiumLevels ++ ",",
      "        \"podium_setback\": " ++ formatNumber config.podiumSetback,
      "    \x7d" ]

/-- The `facadePython` block of `generateBlenderScript` (joined with `\n`). -/
def facadePython (config : BuildingConfig) : String :=
  String.intercalate "\n"
    [ "\x7b",
      "        \"pattern\": \"" ++ facadePatternStr config.facadePattern ++ "\",",
      "        \"module\": " ++ formatNumber config.windowModule ++ ",",
      "        \"window_width\": " ++ formatNumber config.windowWidth ++ ",",
      "        \"window_height\": " ++ formatNumber config.windowHeight ++ ",",
      "        \"spandrel_height\": " ++ formatNumber config.spandrelHeight ++ ",",
      "        \"balcony_depth\": " ++ formatNumber config.balconyDepth ++ ",",
      "        \"balcony_frequency\": \"" ++ balconyFrequencyStr config.balconyFrequency ++ "\",",
      "        \"include_light_shelves\": " ++ pythonBoolean config.includeLightShelves,
      "    \x7d" ]

/-- The docstring header and imports of the generated script. -/
def scriptHeader (config : BuildingConfig) : String :=
  "\"\"\"\nBlender Building Assistant Script\nGenerated for: " ++
    escapePythonString config.projectName ++ "\nNarrative: " ++
    escapePythonString config.narrative ++
    "\n\nRun inside Blender's scripting workspace.\n\"\"\"\n\n" ++
    "import bpy\nimport math\n\n"

/-- The `"project_name"` entry of the generated `CONFIG` dictionary; the
user-supplied name is embedded through `escapePythonString`. -/
def projectNameLine (config : BuildingConfig) : String :=
  "    \"project_name\": \"" ++ escapePythonString config.projectName ++ "\",\n"

/-- The `"narrative"` entry of the generated `CONFIG` dictionary. -/
def narrativeLine (config : BuildingConfig) : String :=
  "    \"narrative\": \"" ++ escapePythonString config.narrative ++ "\",\n"

/-- The entries of the generated `CONFIG` dictionary after the narrative. -/
def configTail (config : BuildingConfig) : String :=
  "    \"floors\": " ++ formatNumber config.floors ++ ",\n" ++
    "    \"units_per_floor\": " ++ formatNumber config.unitsPerFloor ++ ",\n" ++
    "    \"roof_style\": \"" ++ roofStyleStr config.roofStyle ++ "\",\n" ++
    "    \"include_podium\": " ++ pythonBoolean config.includePodium ++ ",\n" ++
    "    \"has_atrium\": " ++ pythonBoolean config.hasAtrium ++ ",\n" ++
    "    \"add_rooftop_garden\": " ++ pythonBoolean config.addRooftopGarden ++ ",\n" ++
    "    \"include_solar_panels\": " ++ pythonBoolean config.includeSolarPanels ++ ",\n" ++
    "    \"dimensions\": " ++ dimsPython config ++ ",\n" ++
    "    \"facade\": " ++ facadePython config ++ ",\n" ++
    "    \"colors\": \x7b\n" ++
    "        \"base\": " ++ colorToPythonTuple config.colors.base ++ ",\n" ++
    "        \"accent\": " ++ colorToPythonTuple config.colors.accent ++ ",\n" ++
    "        \"glazing\": " ++ colorToPythonTuple config.colors.glazing ++ ",\n" ++
    "        \"balcony\": " ++ colorToPythonTuple config.colors.balcony ++ ",\n" ++
    "        \"roof\": " ++ colorToPythonTuple config.colors.roof ++ "\n" ++
    "    \x7d\n\x7d\n"

/-- The `CONFIG = {...}` block of the generated script. -/
def configBlock (config : BuildingConfig) : String :=
  "CONFIG = \x7b\n" ++ projectNameLine config ++ narrativeLine config ++ configTail config

/-- The fixed procedural-construction library of the generated script
(template lines after the `CONFIG` block, one list entry per line). -/
def staticBodyLines : List String := [
  "",
  "",
  "# -------- Utility Helpers --------",
  "def clear_scene():",
  "    bpy.ops.object.select_all(action='SELECT')",
  "    bpy.ops.object.delete()",
  "    for collection in (bpy.data.meshes, bpy.data.lights, bpy.data.cameras):",
  "        for block in list(collection):",
  "            collection.remove(block, do_unlink=True)",
  "",
  "",
  "def create_material(name, color_tuple):",
  "    mat = bpy.data.materials.get(name)",
  "    if mat is None:",
  "        mat = bpy.data.materials.new(name=name)",
  "        mat.use_nodes = True",
  "    nodes = mat.node_tree.nodes",
  "    principled = nodes.get(\"Principled BSDF\")",
  "    principled.inputs[0].default_value = color_tuple",
  "    principled.inputs[7].default_value = 0.05",
  "    return mat",
  "",
  "",
  "# -------- Core Systems --------",
  "def create_site_grid(cfg):",
  "    width = cfg[\"dimensions\"][\"width\"]",
  "    depth = cfg[\"dimensions\"][\"depth\"]",
  "    bpy.ops.mesh.primitive_grid_add(x_subdivisions=12, y_subdivisions=12, size=max(width, depth) * 0.75)",
  "    plane = bpy.context.active_object",
  "    plane.name = f\"\\x7bcfg['project_name']\\x7d::SiteGrid\"",
  "    plane.location = (0, 0, 0)",
  "    plane_mat = create_material(\"GroundPlane\", (0.12, 0.12, 0.12, 1.0))",
  "    plane.data.materials.append(plane_mat)",
  "",
  "",
  "def create_core(cfg, materials):",
  "    dims = cfg[\"dimensions\"]",
  "    height = dims[\"floor_height\"] * cfg[\"floors\"] + dims[\"base_height\"] * 2",
  "    bpy.ops.mesh.primitive_cube_add(size=1)",
  "    core = bpy.context.active_object",
  "    core.name = \"VerticalCore\"",
  "    core.scale = (dims[\"core_width\"] / 2, dims[\"core_depth\"] / 2, height / 2)",
  "    core.location = (0, 0, height / 2)",
  "    core.data.materials.append(materials[\"accent\"])",
  "    bpy.ops.object.modifier_add(type='BEVEL')",
  "    core.modifiers['Bevel'].width = 0.2",
  "    core.modifiers['Bevel'].segments = 2",
  "    return core",
  "",
  "",
  "def create_floor_plate(cfg, level, materials):",
  "    dims = cfg[\"dimensions\"]",
  "    z = dims[\"base_height\"] + dims[\"floor_height\"] * level + dims[\"floor_height\"] / 2",
  "    height = dims[\"floor_height\"]",
  "    if level == 0:",
  "        height = cfg[\"dimensions\"][\"lobby_height\"]",
  "        z = dims[\"base_height\"] + height / 2",
  "    bpy.ops.mesh.primitive_cube_add(size=1)",
  "    block = bpy.context.active_object",
  "    block.name = f\"Floor_\\x7blevel + 1:02d\\x7d\"",
  "    block.scale = (dims[\"width\"] / 2, dims[\"depth\"] / 2, height / 2)",
  "    block.location = (0, 0, z)",
  "    block.data.materials.append(materials[\"base\"])",
  "    return block",
  "",
  "",
  "def create_balcony(cfg, level, col_index, total_cols, materials):",
  "    facade = cfg[\"facade\"]",
  "    dims = cfg[\"dimensions\"]",
  "    if facade[\"balcony_depth\"] <= 0.05:",
  "        return",
  "    spacing = dims[\"width\"] / max(1, total_cols)",
  "    x = -dims[\"width\"] / 2 + spacing * (col_index + 0.5)",
  "    z_base = dims[\"base_height\"] + dims[\"floor_height\"] * level + dims[\"floor_height\"] * 0.6",
  "    bpy.ops.mesh.primitive_cube_add(size=1)",
  "    balcony = bpy.context.active_object",
  "    balcony.name = f\"Balcony_\\x7blevel + 1:02d\\x7d_\\x7bcol_index:02d\\x7d\"",
  "    balcony.scale = (facade[\"window_width\"] / 2, facade[\"balcony_depth\"] / 2, dims[\"floor_height\"] * 0.18)",
  "    balcony.location = (x, dims[\"depth\"] / 2 + facade[\"balcony_depth\"] / 2, z_base)",
  "    balcony.data.materials.append(materials[\"balcony\"])",
  "    bpy.ops.object.modifier_add(type='BEVEL')",
  "    balcony.modifiers['Bevel'].width = 0.08",
  "    balcony.modifiers['Bevel'].segments = 2",
  "",
  "",
  "def add_windows(cfg, level, side, materials):",
  "    dims = cfg[\"dimensions\"]",
  "    facade = cfg[\"facade\"]",
  "    module = max(1.0, facade[\"module\"])",
  "    window_w = facade[\"window_width\"]",
  "    window_h = facade[\"window_height\"]",
  "    is_front_back = side in (\"front\", \"back\")",
  "    width = dims[\"width\"] if is_front_back else dims[\"depth\"]",
  "    depth = dims[\"depth\"] if is_front_back else dims[\"width\"]",
  "    repetitions = max(1, int(width // module))",
  "    forward = depth / 2 + 0.02",
  "    forward = forward if side in (\"front\", \"right\") else -forward",
  "    parent = bpy.data.objects.get(f\"Floor_\\x7blevel + 1:02d\\x7d\")",
  "    for idx in range(repetitions):",
  "        bpy.ops.mesh.primitive_cube_add(size=1)",
  "        win = bpy.context.active_object",
  "        win.name = f\"Window_\\x7bside\\x7d_\\x7blevel + 1:02d\\x7d_\\x7bidx:03d\\x7d\"",
  "        spread = width / repetitions",
  "        position = -width / 2 + spread * (idx + 0.5)",
  "        if is_front_back:",
  "            win.location = (position, forward, dims[\"base_height\"] + dims[\"floor_height\"] * level + window_h / 2 + facade[\"spandrel_height\"])",
  "            win.scale = (window_w / 2, 0.05, window_h / 2)",
  "        else:",
  "            win.location = (forward, position, dims[\"base_height\"] + dims[\"floor_height\"] * level + window_h / 2 + facade[\"spandrel_height\"])",
  "            win.scale = (0.05, window_w / 2, window_h / 2)",
  "        win.data.materials.append(materials[\"glazing\"])",
  "        if parent:",
  "            win.parent = parent",
  "",
  "",
  "def create_podium(cfg, materials):",
  "    dims = cfg[\"dimensions\"]",
  "    setback = cfg[\"dimensions\"][\"podium_setback\"]",
  "    for level in range(cfg[\"dimensions\"][\"podium_levels\"]):",
  "        bpy.ops.mesh.primitive_cube_add(size=1)",
  "        pod = bpy.context.active_object",
  "        pod.name = f\"Podium_\\x7blevel + 1\\x7d\"",
  "        shrink = setback * level",
  "        height = dims[\"floor_height\"]",
  "        pod.scale = ((dims[\"width\"] + setback * 2 - shrink) / 2, (dims[\"depth\"] + setback * 2 - shrink) / 2, height / 2)",
  "        pod.location = (0, 0, dims[\"base_height\"] + height / 2 + level * height)",
  "        pod.data.materials.append(materials[\"accent\"])",
  "",
  "",
  "def apply_roof(cfg, materials):",
  "    dims = cfg[\"dimensions\"]",
  "    top_level = cfg[\"floors\"]",
  "    z = dims[\"base_height\"] + dims[\"floor_height\"] * top_level + dims[\"floor_height\"] * 0.5",
  "    bpy.ops.mesh.primitive_cube_add(size=1)",
  "    roof = bpy.context.active_object",
  "    roof.name = \"Roof\"",
  "    roof.scale = (dims[\"width\"] / 2, dims[\"depth\"] / 2, 0.4)",
  "    roof.location = (0, 0, z)",
  "    roof.data.materials.append(materials[\"roof\"])",
  "    if cfg[\"roof_style\"] == \"pitched\":",
  "        bpy.ops.object.modifier_add(type='SIMPLE_DEFORM')",
  "        roof.modifiers['SimpleDeform'].deform_method = 'BEND'",
  "        roof.modifiers['SimpleDeform'].angle = math.radians(12)",
  "    elif cfg[\"roof_style\"] == \"sawtooth\":",
  "        bpy.ops.object.modifier_add(type='ARRAY')",
  "        roof.modifiers['Array'].count = 4",
  "        roof.modifiers['Array'].relative_offset_displace[0] = 0.3",
  "",
  "    if cfg[\"include_solar_panels\"]:",
  "        panel_count = 10",
  "        for idx in range(panel_count):",
  "            bpy.ops.mesh.primitive_cube_add(size=1)",
  "            panel = bpy.context.active_object",
  "            panel.name = f\"Solar_\\x7bidx:02d\\x7d\"",
  "            panel.scale = (1.2, 2.4, 0.05)",
  "            panel.location = (",
  "                -dims[\"width\"] / 2 + 2 + (idx % 5) * 3,",
  "                -dims[\"depth\"] / 2 + 2 + (idx // 5) * 3,",
  "                z + 0.35,",
  "            )",
  "            panel.data.materials.append(materials[\"accent\"])",
  "            panel.rotation_euler[0] = math.radians(12)",
  "",
  "    if cfg[\"add_rooftop_garden\"]:",
  "        bpy.ops.mesh.primitive_plane_add(size=min(dims[\"width\"], dims[\"depth\"]) * 0.65, location=(0, 0, z + 0.2))",
  "        garden = bpy.context.active_object",
  "        garden.name = \"RooftopGarden\"",
  "        garden_mat = create_material(\"RooftopGarden\", (0.18, 0.32, 0.18, 1))",
  "        garden.data.materials.append(garden_mat)",
  "",
  "",
  "def carve_atrium(cfg):",
  "    if not cfg[\"has_atrium\"]:",
  "        return",
  "    dims = cfg[\"dimensions\"]",
  "    bpy.ops.mesh.primitive_cube_add(size=1)",
  "    atrium = bpy.context.active_object",
  "    atrium.name = \"AtriumCut\"",
  "    atrium.scale = (dims[\"width\"] * 0.25, dims[\"depth\"] * 0.25, dims[\"floor_height\"] * cfg[\"floors\"] / 2)",
  "    atrium.location = (0, 0, dims[\"base_height\"] + dims[\"floor_height\"] * cfg[\"floors\"] / 2)",
  "    for obj in bpy.data.objects:",
  "        if obj.name.startswith(\"Floor_\"):",
  "            bool_mod = obj.modifiers.new(name=\"AtriumBoolean\", type='BOOLEAN')",
  "            bool_mod.operation = 'DIFFERENCE'",
  "            bool_mod.object = atrium",
  "    atrium.hide_viewport = True",
  "    atrium.hide_render = True",
  "",
  "",
  "def tag_metadata(cfg):",
  "    if \"building_metadata\" not in bpy.context.scene:",
  "        bpy.context.scene[\"building_metadata\"] = \\x7b\\x7d",
  "    bpy.context.scene[\"building_metadata\"][cfg[\"project_name\"]] = cfg",
  "",
  "",
  "def material_library(cfg):",
  "    base = create_material(\"Facade_Base\", cfg[\"colors\"][\"base\"])",
  "    accent = create_material(\"Facade_Accent\", cfg[\"colors\"][\"accent\"])",
  "    glazing = create_material(\"Facade_Glass\", cfg[\"colors\"][\"glazing\"])",
  "    balcony = create_material(\"Balcony_Frame\", cfg[\"colors\"][\"balcony\"])",
  "    roof = create_material(\"Roof_Finish\", cfg[\"colors\"][\"roof\"])",
  "    return \\x7b\"base\": base, \"accent\": accent, \"glazing\": glazing, \"balcony\": balcony, \"roof\": roof\\x7d",
  "",
  "",
  "def build(cfg):",
  "    clear_scene()",
  "    create_site_grid(cfg)",
  "    materials = material_library(cfg)",
  "    create_core(cfg, materials)",
  "    if cfg[\"include_podium\"]:",
  "        create_podium(cfg, materials)",
  "    for level in range(cfg[\"floors\"]):",
  "        floor = create_floor_plate(cfg, level, materials)",
  "        add_windows(cfg, level, \"front\", materials)",
  "        add_windows(cfg, level, \"back\", materials)",
  "        add_windows(cfg, level, \"left\", materials)",
  "        add_windows(cfg, level, \"right\", materials)",
  "        if cfg[\"facade\"][\"balcony_frequency\"] != \"none\" and level > 0 and cfg[\"facade\"][\"balcony_depth\"] > 0.05:",
  "            module_count = max(3, int(cfg[\"dimensions\"][\"width\"] // cfg[\"facade\"][\"module\"]))",
  "            if cfg[\"facade\"][\"balcony_frequency\"] == \"every\" or (cfg[\"facade\"][\"balcony_frequency\"] == \"alternate\" and level % 2 == 0):",
  "                for col in range(module_count):",
  "                    create_balcony(cfg, level, col, module_count, materials)",
  "            elif cfg[\"facade\"][\"balcony_frequency\"] == \"corners\":",
  "                corner_cols = max(2, module_count)",
  "                for col in (0, corner_cols - 1):",
  "                    create_balcony(cfg, level, col, corner_cols, materials)",
  "        if cfg[\"facade\"][\"include_light_shelves\"] and level <= 6:",
  "            bpy.ops.mesh.primitive_cube_add(size=1)",
  "            shelf = bpy.context.active_object",
  "            shelf.name = f\"LightShelf_\\x7blevel + 1:02d\\x7d\"",
  "            shelf.scale = (cfg[\"dimensions\"][\"width\"] / 2, 0.25, 0.05)",
  "            shelf.location = (0, cfg[\"dimensions\"][\"depth\"] / 2 + 0.3, floor.location[2] + cfg[\"facade\"][\"window_height\"] / 2)",
  "            shelf.data.materials.append(materials[\"accent\"])",
  "    carve_atrium(cfg)",
  "    apply_roof(cfg, materials)",
  "    tag_metadata(cfg)",
  "    bpy.context.view_layer.update()",
  "",
  "",
  "if __name__ == \"__main__\":",
  "    build(CONFIG)",
  "" ]

/-- The static part of the generated script, newline-joined. -/
def staticBody : String := String.intercalate "\n" staticBodyLines

/-- `generateBlenderScript`: the whole deterministic script compiler. -/
def generateBlenderScript (config : BuildingConfig) : String :=
  scriptHeader config ++ configBlock config ++ staticBody

/-- JS whitespace (the characters `\s` can match in the program's inputs). -/
def isWs (c : Char) : Bool :=
  c = ' ' || c = '\n' || c = '\t' || c = '\r' || c.toNat = 11 || c.toNat = 12

/-- `String.prototype.trim`. -/
def trimChars (l : List Char) : List Char :=
  ((l.dropWhile isWs).reverse.dropWhile isWs).reverse

/-- `String.prototype.toLowerCase` (ASCII, which is all the triggers use). -/
def toLowerChars (l : List Char) : List Char := l.map Char.toLower

/-- Does `needle` occur at the head of the second list? -/
def beginsWith : List Char → List Char → Bool
  | [], _ => true
  | _ :: _, [] => false
  | a :: as, b :: bs => a = b && beginsWith as bs

/-- `String.prototype.includes`: does `needle` occur anywhere? -/
def containsSub (needle : List Char) : List Char → Bool
  | [] => beginsWith needle []
  | c :: t => beginsWith needle (c :: t) || containsSub needle t

/-- Decimal value of a digit run (`parseInt(-, 10)` on an all-digit group). -/
def digitsToNat (ds : List Char) : Nat :=
  ds.foldl (fun a c => a * 10 + (c.toNat - 48)) 0

/-- Attempt the regex `(\d+)[-\s]*(story|storey|floor)s?` anchored at the
head of the list, returning the parsed digit group. -/
def tryFloorAt (l : List Char) : Option Nat :=
  let ds := l.takeWhile Char.isDigit
  if ds.isEmpty then none
  else
    let rest := (l.dropWhile Char.isDigit).dropWhile (fun c => c = '-' || isWs c)
    if beginsWith "story".data rest || beginsWith "storey".data rest ||
        beginsWith "floor".data rest then
      some (digitsToNat ds)
    else none

/-- First (leftmost) match of `/(\d+)[-\s]*(story|storey|floor)s?/`. -/
def findFloor : List Char → Option Nat
  | [] => none
  | c :: t =>
    match tryFloorAt (c :: t) with
    | some n => some n
    | none => findFloor t

/-- Attempt `(\d+(?:\.\d+)?)` anchored at the head: the parsed value
(`parseFloat` of the group) and the remaining characters. -/
def tryNumAt (l : List Char) : Option (JsNumber × List Char) :=
  let ds := l.takeWhile Char.isDigit
  if ds.isEmpty then none
  else
    let rest := l.dropWhile Char.isDigit
    match rest with
    | '.' :: r2 =>
      let fs := r2.takeWhile Char.isDigit
      if fs.isEmpty then some (⟨(digitsToNat ds : Int), 1⟩, rest)
      else
        some (⟨(digitsToNat ds : Int) * tenPow fs.length + (digitsToNat fs : Int),
          tenPow fs.length⟩, r2.dropWhile Char.isDigit)
    | _ => some (⟨(digitsToNat ds : Int), 1⟩, rest)

/-- The `\s*m(?:eter)?s?\s*⟨final⟩` tail of the width/depth regexes, with the
optional groups tried both ways as the regex engine would. -/
def unitTail (finals : List (List Char)) (r : List Char) : Bool :=
  match r.dropWhile isWs with
  | 'm' :: r2 =>
    let opts1 : List (List Char) :=
      if beginsWith "eter".data r2 then [r2.drop 4, r2] else [r2]
    opts1.any (fun a =>
      let opts2 : List (List Char) := match a with | 's' :: a2 => [a2, a] | _ => [a]
      opts2.any (fun b => finals.any (fun f => beginsWith f (b.dropWhile isWs))))
  | _ => false

/-- First match of `/(\d+(?:\.\d+)?)\s*m(?:eter)?s?\s*⟨final⟩/`, returning
the parsed numeric group. -/
def findDim (finals : List (List Char)) : List Char → Option JsNumber
  | [] => none
  | c :: t =>
    match tryNumAt (c :: t) with
    | some (v, rest) => if unitTail finals rest then some v else findDim finals t
    | none => findDim finals t

/-- Attempt `(\d+)\s*units?` anchored at the head. -/
def tryUnitsAt (l : List Char) : Option Nat :=
  let ds := l.takeWhile Char.isDigit
  if ds.isEmpty then none
  else
    let rest := (l.dropWhile Char.isDigit).dropWhile isWs
    if beginsWith "unit".data rest then some (digitsToNat ds) else none

/-- First match of `/(\d+)\s*units?/`. -/
def findUnits : List Char → Option Nat
  | [] => none
  | c :: t =>
    match tryUnitsAt (c :: t) with
    | some n => some n
    | none => findUnits t

/-- Number of decimal digits JS prints for an exactly-decimal number
(fuel-bounded search for the least `k` with `q·10^k` integral). -/
def decimalsNeeded : Nat → JsNumber → Nat
  | 0, _ => 0
  | f + 1, q => if isInt q then 0 else 1 + decimalsNeeded f ⟨q.num * 10, q.den⟩

/-- Digit rendering of a nonnegative JS number as template interpolation
(`${value}`) prints it: no point for integers, else the shortest exact
decimal expansion. -/
def jsNumberPosChars (q : JsNumber) : List Char :=
  let k := decimalsNeeded 64 q
  if k = 0 then natChars (floorJs q).toNat
  else
    let n := (Int.fdiv (q.num * tenPow k) q.den).toNat
    natChars (n / (tenPow k).toNat) ++ '.' :: padZeros k (natChars (n % (tenPow k).toNat))

/-- `${value}` for any JS number. -/
def jsNumberToString (q : JsNumber) : String :=
  if ltb q 0 then ⟨'-' :: jsNumberPosChars (JsNumber.neg q)⟩ else ⟨jsNumberPosChars q⟩

/-- Trigger 1 of `applyAiInference`: the explicit `N floors/stories` pattern,
else the mutually exclusive `supertall` / `tall` / `low-rise`/`mid-rise`
qualitative triggers. -/
def trigFloors (n : List Char) (current : BuildingConfig)
    (s : ConfigOverlay × List String) : ConfigOverlay × List String :=
  match findFloor n with
  | some k =>
    let floors := clamp (k : JsNumber) 1 80
    ({ s.1 with floors := some floors },
      s.2 ++ ["Set tower to " ++ jsNumberToString floors ++ " floors."])
  | none =>
    if containsSub "supertall".data n then
      ({ s.1 with floors := some (clamp (current.floors + 40) 30 120) },
        s.2 ++ ["Adjusted height to supertall proportion."])
    else if containsSub "tall".data n then
      ({ s.1 with floors := some (clamp (current.floors + 8) 6 80) },
        s.2 ++ ["Raised overall height."])
    else if containsSub "low-rise".data n || containsSub "mid-rise".data n then
      ({ s.1 with floors := some (clamp current.floors 4 12) },
        s.2 ++ ["Shaped tower to mid-rise scale."])
    else s

/-- Trigger 2: `N m wide` sets the (clamped) width. -/
def trigWidth (n : List Char) (_current : BuildingConfig)
    (s : ConfigOverlay × List String) : ConfigOverlay × List String :=
  match findDim ["wide".data] n with
  | some v =>
    let widthValue := clamp v 10 120
    ({ s.1 with width := some widthValue },
      s.2 ++ ["Adjusted width to " ++ jsNumberToString widthValue ++ "m."])
  | none => s

/-- Trigger 3: `N m deep/depth` sets the (clamped) depth. -/
def trigDepth (n : List Char) (_current : BuildingConfig)
    (s : ConfigOverlay × List String) : ConfigOverlay × List String :=
  match findDim ["deep".data, "depth".data] n with
  | some v =>
    let depthValue := clamp v 10 120
    ({ s.1 with depth := some depthValue },
      s.2 ++ ["Adjusted depth to " ++ jsNumberToString depthValue ++ "m."])
  | none => s

/-- Trigger 4: `slender` shrinks width and depth by 15% (clamped). -/
def trigSlender (n : List Char) (current : BuildingConfig)
    (s : ConfigOverlay × List String) : ConfigOverlay × List String :=
  if containsSub "slender".data n then
    ({ s.1 with
        width := some (clamp (current.width * 0.85) 12 current.width)
        depth := some (clamp (current.depth * 0.85) 12 current.depth) },
      s.2 ++ ["Slenderized the floor plate."])
  else s

/-- Trigger 5: `atrium`. -/
def trigAtrium (n : List Char) (_current : BuildingConfig)
    (s : ConfigOverlay × List String) : ConfigOverlay × List String :=
  if containsSub "atrium".data n then
    ({ s.1 with hasAtrium := some true }, s.2 ++ ["Enabled multi-level atrium."])
  else s

/-- Trigger 6: `podium`. -/
def trigPodium (n : List Char) (current : BuildingConfig)
    (s : ConfigOverlay × List String) : ConfigOverlay × List String :=
  if containsSub "podium".data n then
    ({ s.1 with
        includePodium := some true
        podiumLevels := some (mathMax current.podiumLevels 2) },
      s.2 ++ ["Activated urban podium interface."])
  else s

/-- Trigger 7: `garden` or `green roof`. -/
def trigGarden (n : List Char) (_current : BuildingConfig)
    (s : ConfigOverlay × List String) : ConfigOverlay × List String :=
  if containsSub "garden".data n || containsSub "green roof".data n then
    ({ s.1 with addRooftopGarden := some true },
      s.2 ++ ["Reserved rooftop for green space."])
  else s

/-- Trigger 8: `solar`. -/
def trigSolar (n : List Char) (_current : BuildingConfig)
    (s : ConfigOverlay × List String) : ConfigOverlay × List String :=
  if containsSub "solar".data n then
    ({ s.1 with includeSolarPanels := some true },
      s.2 ++ ["Integrated rooftop solar arrays."])
  else s

/-- Trigger 9: `balcon`, with `every` / `corner` / default-`alternate`
choosing the frequency. -/
def trigBalcony (n : List Char) (_current : BuildingConfig)
    (s : ConfigOverlay × List String) : ConfigOverlay × List String :=
  if containsSub "balcon".data n then
    let freq :=
      if containsSub "every".data n then BalconyFrequency.every
      else if containsSub "corner".data n then BalconyFrequency.corners
      else BalconyFrequency.alternate
    ({ s.1 with balconyFrequency := some freq },
      s.2 ++ ["Reconfigured balcony rhythm."])
  else s

/-- Trigger 10: the `glass curtain` / `brick` / `timber`-or-`wood` facade
chain (mutually exclusive, with palette overrides spread over the current
colours). -/
def trigFacade (n : List Char) (current : BuildingConfig)
    (s : ConfigOverlay × List String) : ConfigOverlay × List String :=
  if containsSub "glass curtain".data n then
    ({ s.1 with
        facadePattern := some FacadePattern.grid
        colors := some
          { base := some "#2b3a55"
            accent := some "#546a89"
            glazing := some "#a7d9ff"
            balcony := some current.colors.balcony
            roof := some current.colors.roof } },
      s.2 ++ ["Shifted to glass curtain wall aesthetic."])
  else if containsSub "brick".data n then
    ({ s.1 with
        facadePattern := some FacadePattern.stacked
        colors := some
          { base := some "#884a39"
            accent := some "#d46f4d"
            glazing := some "#93c6ff"
            balcony := some current.colors.balcony
            roof := some current.colors.roof } },
      s.2 ++ ["Applied brick-inspired palette."])
  else if containsSub "timber".data n || containsSub "wood".data n then
    ({ s.1 with
        facadePattern := some FacadePattern.offset
        colors := some
          { base := some "#8c6b3e"
            accent := some "#d9b382"
            glazing := some "#9bc1ff"
            balcony := some current.colors.balcony
            roof := some current.colors.roof } },
      s.2 ++ ["Shifted to warm timber articulation."])
  else s

/-- Trigger 11: `light shelves`. -/
def trigShelves (n : List Char) (_current : BuildingConfig)
    (s : ConfigOverlay × List String) : ConfigOverlay × List String :=
  if containsSub "light shelves".data n then
    ({ s.1 with includeLightShelves := some true },
      s.2 ++ ["Added daylight shelves to facade."])
  else s

/-- Trigger 12: the `pitched roof` / `sawtooth` / `flat roof` chain. -/
def trigRoof (n : List Char) (_current : BuildingConfig)
    (s : ConfigOverlay × List String) : ConfigOverlay × List String :=
  if containsSub "pitched roof".data n then
    ({ s.1 with roofStyle := some RoofStyle.pitched },
      s.2 ++ ["Configured pitched roof profile."])
  else if containsSub "sawtooth".data n then
    ({ s.1 with roofStyle := some RoofStyle.sawtooth },
      s.2 ++ ["Configured sawtooth roof profile."])
  else if containsSub "flat roof".data n then
    ({ s.1 with roofStyle := some RoofStyle.flat },
      s.2 ++ ["Kept clean flat roofline."])
  else s

/-- Trigger 13: `generous lobby` or `grand lobby`. -/
def trigLobby (n : List Char) (current : BuildingConfig)
    (s : ConfigOverlay × List String) : ConfigOverlay × List String :=
  if containsSub "generous lobby".data n || containsSub "grand lobby".data n then
    ({ s.1 with lobbyHeight := some (clamp (current.lobbyHeight * 1.2) 4.5 12) },
      s.2 ++ ["Expanded lobby volume."])
  else s

/-- Trigger 14: `N units`. -/
def trigUnits (n : List Char) (_current : BuildingConfig)
    (s : ConfigOverlay × List String) : ConfigOverlay × List String :=
  match findUnits n with
  | some k =>
    let units := clamp (k : JsNumber) 2 40
    ({ s.1 with unitsPerFloor := some units },
      s.2 ++ ["Set " ++ jsNumberToString units ++ " flexible units per typical floor."])
  | none => s

/-- `applyAiInference` before the final `join(" ")`: the overlay plus the
ordered list of summary parts, each trigger applied in definition order. -/
def applyAiInferenceCore (prompt : String) (current : BuildingConfig) :
    ConfigOverlay × List String :=
  let normalized := toLowerChars (trimChars prompt.data)
  if normalized.isEmpty then ({}, [])
  else
    trigUnits normalized current (trigLobby normalized current (trigRoof normalized current
      (trigShelves normalized current (trigFacade normalized current
      (trigBalcony normalized current (trigSolar normalized current
      (trigGarden normalized current (trigPodium normalized current
      (trigAtrium normalized current (trigSlender normalized current
      (trigDepth normalized current (trigWidth normalized current
      (trigFloors normalized current ({}, []))))))))))))))

/-- `type AiInference = { updates: Partial<BuildingConfig>; summary: string }`. -/
structure AiInference where
  updates : ConfigOverlay
  summary : String
deriving DecidableEq

/-- `applyAiInference`: overlay plus space-joined summary. -/
def applyAiInference (prompt : String) (current : BuildingConfig) : AiInference :=
  let r := applyAiInferenceCore prompt current
  { updates := r.1, summary := String.intercalate " " r.2 }

/-- `handleApplyAi`'s effect on the configuration: no-op when no trigger
fired, otherwise merge the inferred overlay with the prompt appended to the
narrative (`` `${config.narrative}\n\nPrompt: ${aiPrompt.trim()}` ``). -/
def handleApplyAi (config : BuildingConfig) (aiPrompt : String) : BuildingConfig :=
  let r := applyAiInference aiPrompt config
  if r.updates = ({} : ConfigOverlay) then config
  else
    let narr := config.narrative ++ "\n\nPrompt: " ++ String.mk (trimChars aiPrompt.data)
    updateConfig config { r.updates with narrative := some narr }

/-- `module_count` of the emitted build loop:
`max(3, int(cfg["dimensions"]["width"] // cfg["facade"]["module"]))`. -/
def moduleCount (cfg : BuildingConfig) : Nat :=
  (max 3 (floorJs (cfg.width / cfg.windowModule))).toNat

/-- The `(level, column)` pairs at which the emitted `build(cfg)` loop calls
`create_balcony` with the call actually creating geometry.  `create_balcony`
itself returns early when `balcony_depth <= 0.05`, which is the same
condition the loop already tests, so the loop guard fully decides
placement. -/
def balconyCells (cfg : BuildingConfig) : List (Nat × Nat) :=
  let floorsN := (floorJs cfg.floors).toNat
  (List.range floorsN).flatMap (fun level =>
    if cfg.balconyFrequency ≠ BalconyFrequency.none ∧ 0 < level ∧
        ltb (0.05 : JsNumber) cfg.balconyDepth then
      let mc := moduleCount cfg
      if cfg.balconyFrequency = BalconyFrequency.every ∨
          (cfg.balconyFrequency = BalconyFrequency.alternate ∧ level % 2 = 0) then
        (List.range mc).map (fun col => (level, col))
      else if cfg.balconyFrequency = BalconyFrequency.corners then
        [(level, 0), (level, max 2 mc - 1)]
      else []
    else [])

/-- Per-character view of the two-pass `escapePythonString`: the composite
rewrites a backslash to a doubled backslash, a double quote to an escaped
quote, and leaves every other character alone. -/
def escChar (c : Char) : List Char :=
  if c = '\\' then ['\\', '\\'] else if c = '"' then ['\\', '"'] else [c]

/-- Is a character list valid as the body of a double-quoted Python string
literal: no unescaped `"` and no dangling final backslash. -/
def pyLiteralOk : List Char → Bool
  | [] => true
  | c :: [] => !(c = '"' || c = '\\')
  | c :: d :: rest =>
    if c = '"' then false
    else if c = '\\' then pyLiteralOk rest
    else pyLiteralOk (d :: rest)

/-- A parsed colour channel is in range: `0 ≤ v/255 ≤ 1` as JS numbers. -/
def channelInRange (v : Nat) : Prop :=
  leb 0 (JsNumber.div ⟨(v : Int), 1⟩ ⟨255, 1⟩) ∧
    leb (JsNumber.div ⟨(v : Int), 1⟩ ⟨255, 1⟩) 1

/-- The default configuration with corner balconies (the concrete scenario
of the balcony-policy claim: frequency `corners`, module 3.2, width 38). -/
def cornersExample : BuildingConfig :=
  { defaultConfig with balconyFrequency := BalconyFrequency.corners }

/-- The concrete intent-mapper prompt of the spec's test property. -/
def midRisePrompt : String :=
  "a mid-rise timber tower with generous balconies and green roof"

/-- The overlay the intent mapper produces for `midRisePrompt` on the
default configuration. -/
def midRiseOverlay : ConfigOverlay where
  floors := some 12
  facadePattern := some FacadePattern.offset
  balconyFrequency := some BalconyFrequency.alternate
  addRooftopGarden := some true
  colors := some
    { base := some "#8c6b3e"
      accent := some "#d9b382"
      glazing := some "#9bc1ff"
      balcony := some "#f2ede4"
      roof := some "#37414f" }

theorem digitChar_ne_dot (n : Nat) : digitChar n ≠ '.' := by
  unfold digitChar
  split <;> decide

theorem natCharsAux_no_dot (fuel : Nat) : ∀ n c, c ∈ natCharsAux fuel n → c ≠ '.' := by
  induction fuel with
  | zero => intro n c h; simp [natCharsAux] at h
  | succ f ih =>
    intro n c h
    simp only [natCharsAux] at h
    by_cases h10 : n < 10
    · rw [if_pos h10] at h
      simp at h
      exact h ▸ digitChar_ne_dot n
    · rw [if_neg h10] at h
      rcases List.mem_append.mp h with h1 | h2
      · exact ih _ c h1
      · simp at h2
        exact h2 ▸ digitChar_ne_dot (n % 10)

theorem natChars_no_dot (n : Nat) : ∀ c ∈ natChars n, c ≠ '.' :=
  fun c h => natCharsAux_no_dot (n + 1) n c h

theorem natCharsAux_small (fuel n : Nat) (hf : 0 < fuel) (hn : n < 10) :
    natCharsAux fuel n = [digitChar n] := by
  cases fuel with
  | zero => omega
  | succ f => simp [natCharsAux, hn]

theorem natChars_length_le_two (n : Nat) (h : n < 100) : (natChars n).length ≤ 2 := by
  unfold natChars
  by_cases h10 : n < 10
  · rw [natCharsAux_small _ _ (by omega) h10]
    simp
  · have : natCharsAux (n + 1) n = natCharsAux n (n / 10) ++ [digitChar (n % 10)] := by
      simp [natCharsAux, h10]
    rw [this, natCharsAux_small n (n / 10) (by omega) (by omega)]
    simp

theorem padZeros_length (k : Nat) (l : List Char) (h : l.length ≤ k) :
    (padZeros k l).length = k := by
  simp [padZeros]
  omega

theorem padZeros_mem (k : Nat) (l : List Char) :
    ∀ c ∈ padZeros k l, c = '0' ∨ c ∈ l := by
  intro c h
  rcases List.mem_append.mp h with h1 | h2
  · exact Or.inl (List.eq_of_mem_replicate h1)
  · exact Or.inr h2

theorem dropWhile_append_sat (p : Char → Bool) (l1 l2 : List Char)
    (h : ∀ c ∈ l1, p c = true) : List.dropWhile p (l1 ++ l2) = List.dropWhile p l2 := by
  induction l1 with
  | nil => simp
  | cons c t ih =>
    simp only [List.cons_append, List.dropWhile_cons]
    rw [h c (List.mem_cons_self c t)]
    simp only [if_true]
    exact ih (fun d hd => h d (List.mem_cons_of_mem c hd))

/-- C1: the script compiler is pure and deterministic — the output depends on
nothing but the configuration value, so equal configurations produce
byte-identical scripts. -/
theorem claim_C1_script_compiler_deterministic :
    ∀ c₁ c₂ : BuildingConfig, c₁ = c₂ →
      generateBlenderScript c₁ = generateBlenderScript c₂ :=
  fun _ _ h => congrArg generateBlenderScript h

theorem claim_C1_witness :
    generateBlenderScript defaultConfig = generateBlenderScript defaultConfig :=
  claim_C1_script_compiler_deterministic defaultConfig defaultConfig rfl

/-- C4: colour conversion — `#ff0000` and `#f00` both convert to
`(1.0000, 0.0000, 0.0000, 1.0)`; a 3-hex-digit colour (with or without the
leading `#`) converts exactly as its digit-duplicated 6-digit expansion. -/
theorem claim_C4_hex_color_conversion :
    colorToPythonTuple "#ff0000" = "(1.0000, 0.0000, 0.0000, 1.0)" ∧
    colorToPythonTuple "#f00" = "(1.0000, 0.0000, 0.0000, 1.0)" ∧
    (∀ a b c : Char,
      colorToPythonTuple ⟨['#', a, b, c]⟩ = colorToPythonTuple ⟨['#', a, a, b, b, c, c]⟩) ∧
    (∀ a b c : Char, a ≠ '#' → b ≠ '#' → c ≠ '#' →
      colorToPythonTuple ⟨[a, b, c]⟩ = colorToPythonTuple ⟨[a, a, b, b, c, c]⟩) := by
  refine ⟨by decide, by decide, ?_, ?_⟩
  · intro a b c
    simp [colorToPythonTuple, hexToRgb, removeFirst, chunkPairs]
  · intro a b c ha hb hc
    simp [colorToPythonTuple, hexToRgb, removeFirst, chunkPairs, ha, hb, hc]

theorem claim_C4_witness :
    colorToPythonTuple ⟨['f', '0', '0']⟩ = colorToPythonTuple ⟨['f', 'f', '0', '0', '0', '0']⟩ :=
  claim_C4_hex_color_conversion.2.2.2 'f' '0' '0' (by decide) (by decide) (by decide)

theorem toFixedPos_zero (q : JsNumber) :
    toFixedPos 0 q = natChars ((Int.fdiv (2 * q.num * tenPow 0 + q.den) (2 * q.den)).toNat) :=
  rfl

theorem toFixedPos_two (q : JsNumber) :
    toFixedPos 2 q =
      natChars (((Int.fdiv (2 * q.num * tenPow 2 + q.den) (2 * q.den)).toNat) / (tenPow 2).toNat) ++
        '.' :: padZeros 2
          (natChars (((Int.fdiv (2 * q.num * tenPow 2 + q.den) (2 * q.den)).toNat) % (tenPow 2).toNat)) :=
  rfl

theorem no_dot_toFixedChars_zero (q : JsNumber) : '.' ∉ toFixedChars 0 q := by
  unfold toFixedChars
  split
  · intro hmem
    rcases List.mem_cons.mp hmem with h1 | h2
    · exact absurd h1 (by decide)
    · rw [toFixedPos_zero] at h2
      exact natChars_no_dot _ _ h2 rfl
  · intro hmem
    rw [toFixedPos_zero] at hmem
    exact natChars_no_dot _ _ hmem rfl

theorem dot_suffix_toFixedPos_two (q : JsNumber) :
    ((toFixedPos 2 q).dropWhile (fun c => c != '.')).length = 3 := by
  rw [toFixedPos_two]
  rw [dropWhile_append_sat _ _ _
    (fun c hc => by simpa [bne_iff_ne] using natChars_no_dot _ c hc)]
  rw [List.dropWhile_cons]
  rw [show (('.' : Char) != '.') = false from rfl]
  simp only [Bool.false_eq_true, if_false, List.length_cons]
  rw [padZeros_length]
  apply natChars_length_le_two
  rw [show (tenPow 2).toNat = 100 from rfl]
  exact Nat.mod_lt _ (by omega)

theorem dot_suffix_toFixedChars_two (q : JsNumber) :
    ((toFixedChars 2 q).dropWhile (fun c => c != '.')).length = 3 := by
  unfold toFixedChars
  split
  · rw [List.dropWhile_cons]
    rw [show (('-' : Char) != '.') = true from rfl]
    simp only [if_true]
    exact dot_suffix_toFixedPos_two _
  · exact dot_suffix_toFixedPos_two _

/-- C5: `formatNumber` prints an integer with no decimal point exactly when
the value has no fractional part, and otherwise prints exactly two decimal
digits; `3.6` renders as `"3.60"` and `18` as `"18"`. -/
theorem claim_C5_number_formatting :
    (∀ q : JsNumber,
      ((isInt q = true) ↔ '.' ∉ (formatNumber q).data) ∧
      (isInt q = false →
        ((formatNumber q).data.dropWhile (fun c => c != '.')).length = 3)) ∧
    formatNumber 3.6 = "3.60" ∧ formatNumber 18 = "18" := by
  refine ⟨?_, by decide, by decide⟩
  intro q
  have hdata : ∀ l : List Char, ({ data := l } : String).data = l := fun _ => rfl
  constructor
  · constructor
    · intro hint
      rw [formatNumber, if_pos hint, hdata]
      exact no_dot_toFixedChars_zero q
    · intro hdot
      by_contra hint
      rw [Bool.not_eq_true] at hint
      rw [formatNumber, if_neg (by simp [hint]), hdata] at hdot
      have h3 := dot_suffix_toFixedChars_two q
      have hall : ∀ c ∈ toFixedChars 2 q, (fun c => c != '.') c = true := by
        intro c hc
        simp only [bne_iff_ne, ne_eq, decide_eq_true_eq]
        intro hcdot
        exact hdot (hcdot ▸ hc)
      have hnil := dropWhile_append_sat _ (toFixedChars 2 q) [] hall
      rw [List.append_nil] at hnil
      rw [hnil] at h3
      simp at h3
  · intro hint
    rw [formatNumber, if_neg (by simp [hint]), hdata]
    exact dot_suffix_toFixedChars_two q

theorem claim_C5_witness :
    isInt (3.6 : JsNumber) = false ∧
    ((formatNumber (3.6 : JsNumber)).data.dropWhile (fun c => c != '.')).length = 3 :=
  ⟨by decide, (claim_C5_number_formatting.1 (3.6 : JsNumber)).2 (by decide)⟩

/-- C7: `updateConfig` replaces exactly the overlay's present top-level
fields, leaves absent fields unchanged, and merges the colour sub-record
key-by-key; in particular an accent-only colour overlay changes nothing but
the accent colour. -/
theorem claim_C7_merge_semantics :
    ∀ (cfg : BuildingConfig) (p : ConfigOverlay),
      ((updateConfig cfg p).projectName = p.projectName.getD cfg.projectName) ∧
      ((updateConfig cfg p).narrative = p.narrative.getD cfg.narrative) ∧
      ((updateConfig cfg p).floors = p.floors.getD cfg.floors) ∧
      ((updateConfig cfg p).floorHeight = p.floorHeight.getD cfg.floorHeight) ∧
      ((updateConfig cfg p).lobbyHeight = p.lobbyHeight.getD cfg.lobbyHeight) ∧
      ((updateConfig cfg p).width = p.width.getD cfg.width) ∧
      ((updateConfig cfg p).depth = p.depth.getD cfg.depth) ∧
      ((updateConfig cfg p).coreWidth = p.coreWidth.getD cfg.coreWidth) ∧
      ((updateConfig cfg p).coreDepth = p.coreDepth.getD cfg.coreDepth) ∧
      ((updateConfig cfg p).baseHeight = p.baseHeight.getD cfg.baseHeight) ∧
      ((updateConfig cfg p).structuralGrid = p.structuralGrid.getD cfg.structuralGrid) ∧
      ((updateConfig cfg p).unitsPerFloor = p.unitsPerFloor.getD cfg.unitsPerFloor) ∧
      ((updateConfig cfg p).facadePattern = p.facadePattern.getD cfg.facadePattern) ∧
      ((updateConfig cfg p).windowModule = p.windowModule.getD cfg.windowModule) ∧
      ((updateConfig cfg p).windowWidth = p.windowWidth.getD cfg.windowWidth) ∧
      ((updateConfig cfg p).windowHeight = p.windowHeight.getD cfg.windowHeight) ∧
      ((updateConfig cfg p).spandrelHeight = p.spandrelHeight.getD cfg.spandrelHeight) ∧
      ((updateConfig cfg p).balconyDepth = p.balconyDepth.getD cfg.balconyDepth) ∧
      ((updateConfig cfg p).balconyFrequency = p.balconyFrequency.getD cfg.balconyFrequency) ∧
      ((updateConfig cfg p).roofStyle = p.roofStyle.getD cfg.roofStyle) ∧
      ((updateConfig cfg p).podiumLevels = p.podiumLevels.getD cfg.podiumLevels) ∧
      ((updateConfig cfg p).podiumSetback = p.podiumSetback.getD cfg.podiumSetback) ∧
      ((updateConfig cfg p).includePodium = p.includePodium.getD cfg.includePodium) ∧
      ((updateConfig cfg p).hasAtrium = p.hasAtrium.getD cfg.hasAtrium) ∧
      ((updateConfig cfg p).addRooftopGarden = p.addRooftopGarden.getD cfg.addRooftopGarden) ∧
      ((updateConfig cfg p).includeSolarPanels = p.includeSolarPanels.getD cfg.includeSolarPanels) ∧
      ((updateConfig cfg p).includeLightShelves = p.includeLightShelves.getD cfg.includeLightShelves) ∧
      ((updateConfig cfg p).colors.base = (p.colors.bind ColorsOverlay.base).getD cfg.colors.base) ∧
      ((updateConfig cfg p).colors.accent = (p.colors.bind ColorsOverlay.accent).getD cfg.colors.accent) ∧
      ((updateConfig cfg p).colors.glazing = (p.colors.bind ColorsOverlay.glazing).getD cfg.colors.glazing) ∧
      ((updateConfig cfg p).colors.balcony = (p.colors.bind ColorsOverlay.balcony).getD cfg.colors.balcony) ∧
      ((updateConfig cfg p).colors.roof = (p.colors.bind ColorsOverlay.roof).getD cfg.colors.roof) ∧
      (∀ c : String,
        updateConfig cfg { colors := some { accent := some c } } =
          { cfg with colors := { cfg.colors with accent := c } }) := by
  intro cfg p
  refine ⟨rfl, rfl, rfl, rfl, rfl, rfl, rfl, rfl, rfl, rfl, rfl, rfl, rfl, rfl, rfl, rfl,
    rfl, rfl, rfl, rfl, rfl, rfl, rfl, rfl, rfl, rfl, rfl, rfl, rfl, rfl, rfl, rfl,
    fun c => rfl⟩

theorem replaceAllChar_append (t : Char) (r l1 l2 : List Char) :
    replaceAllChar t r (l1 ++ l2) = replaceAllChar t r l1 ++ replaceAllChar t r l2 := by
  induction l1 with
  | nil => simp [replaceAllChar]
  | cons c tl ih => simp [replaceAllChar, ih]

theorem escapePythonChars_flatMap (l : List Char) :
    escapePythonChars l = l.flatMap escChar := by
  induction l with
  | nil => rfl
  | cons c t ih =>
    show replaceAllChar '"' ['\\', '"'] (replaceAllChar '\\' ['\\', '\\'] (c :: t)) = _
    rw [show replaceAllChar '\\' ['\\', '\\'] (c :: t) =
      (if c = '\\' then ['\\', '\\'] else [c]) ++ replaceAllChar '\\' ['\\', '\\'] t from rfl]
    rw [replaceAllChar_append]
    rw [List.flatMap_cons]
    have hsuffix : replaceAllChar '"' ['\\', '"'] (replaceAllChar '\\' ['\\', '\\'] t) =
        t.flatMap escChar := ih
    rw [hsuffix]
    congr 1
    by_cases h1 : c = '\\'
    · subst h1; rfl
    · by_cases h2 : c = '"'
      · subst h2; rfl
      · simp [escChar, replaceAllChar, h1, h2]

theorem pyLiteralOk_flatMap (l : List Char) : pyLiteralOk (l.flatMap escChar) = true := by
  induction l with
  | nil => rfl
  | cons c t ih =>
    rw [List.flatMap_cons]
    by_cases h1 : c = '\\'
    · subst h1
      show pyLiteralOk ('\\' :: '\\' :: t.flatMap escChar) = true
      rw [show pyLiteralOk ('\\' :: '\\' :: t.flatMap escChar) =
        pyLiteralOk (t.flatMap escChar) from by simp [pyLiteralOk]]
      exact ih
    · by_cases h2 : c = '"'
      · subst h2
        show pyLiteralOk ('\\' :: '"' :: t.flatMap escChar) = true
        rw [show pyLiteralOk ('\\' :: '"' :: t.flatMap escChar) =
          pyLiteralOk (t.flatMap escChar) from by simp [pyLiteralOk]]
        exact ih
      · rw [show escChar c = [c] from by simp [escChar, h1, h2]]
        cases htl : t.flatMap escChar with
        | nil => simp [pyLiteralOk, h1, h2]
        | cons d rest =>
          show pyLiteralOk (c :: d :: rest) = true
          rw [show pyLiteralOk (c :: d :: rest) = pyLiteralOk (d :: rest) from by
            simp [pyLiteralOk, h1, h2]]
          rw [← htl]
          exact ih

/-- C6: user text is escaped (backslash pass first, quote pass second, which
composes to an independent per-character rewrite), the escaped text is always
a valid double-quoted string-literal body, a name with both a quote and a
backslash escapes both, and the generated script embeds the escaped project
name in its `CONFIG` block. -/
theorem claim_C6_escaping :
    (∀ l : List Char, escapePythonChars l = l.flatMap escChar) ∧
    (∀ s : String, pyLiteralOk (escapePythonChars s.data) = true) ∧
    escapePythonString "a\"b\\c" = "a\\\"b\\\\c" ∧
    (∀ cfg : BuildingConfig, ∃ pre post,
      (generateBlenderScript cfg).data =
        pre ++ (projectNameLine cfg).data ++ post) := by
  refine ⟨escapePythonChars_flatMap, ?_, by decide, ?_⟩
  · intro s
    rw [escapePythonChars_flatMap]
    exact pyLiteralOk_flatMap s.data
  · intro cfg
    refine ⟨(scriptHeader cfg).data ++ "CONFIG = \x7b\n".data,
      (narrativeLine cfg).data ++ (configTail cfg).data ++ staticBody.data, ?_⟩
    show (scriptHeader cfg ++ configBlock cfg ++ staticBody).data = _
    rw [show configBlock cfg =
      "CONFIG = \x7b\n" ++ projectNameLine cfg ++ narrativeLine cfg ++ configTail cfg from rfl]
    simp [List.append_assoc]

/-- C9: `escapePythonString` rewrites only backslash and double quote — every
other character, newline included, passes through unchanged, so a narrative
containing a newline puts a literal newline inside the generated `CONFIG`
string literal; and an applied AI move appends `"\n\nPrompt: ..."` to the
narrative. -/
theorem claim_C9_newline_passthrough :
    (∀ c : Char, c ≠ '\\' → c ≠ '"' → escChar c = [c]) ∧
    (∀ l : List Char, (∀ c ∈ l, c ≠ '\\' ∧ c ≠ '"') → escapePythonChars l = l) ∧
    escapePythonChars ['\n'] = ['\n'] ∧
    (∀ cfg : BuildingConfig, '\n' ∈ cfg.narrative.data → '\n' ∈ (narrativeLine cfg).data) ∧
    (∀ (cfg : BuildingConfig) (prompt : String),
      (applyAiInference prompt cfg).updates ≠ ({} : ConfigOverlay) →
      (handleApplyAi cfg prompt).narrative =
        cfg.narrative ++ "\n\nPrompt: " ++ ⟨trimChars prompt.data⟩) := by
  refine ⟨?_, ?_, by decide, ?_, ?_⟩
  · intro c h1 h2
    simp [escChar, h1, h2]
  · intro l h
    rw [escapePythonChars_flatMap]
    induction l with
    | nil => rfl
    | cons c t ih =>
      rw [List.flatMap_cons]
      rw [show escChar c = [c] from by
        simp [escChar, (h c (List.mem_cons_self c t)).1, (h c (List.mem_cons_self c t)).2]]
      rw [ih (fun d hd => h d (List.mem_cons_of_mem c hd))]
      rfl
  · intro cfg hmem
    show '\n' ∈ ("    \"narrative\": \"" ++ escapePythonString cfg.narrative ++ "\",\n").data
    have : '\n' ∈ (escapePythonString cfg.narrative).data := by
      show '\n' ∈ escapePythonChars cfg.narrative.data
      rw [escapePythonChars_flatMap]
      exact List.mem_flatMap.mpr ⟨'\n', hmem, by decide⟩
    simp only [String.data_append, List.mem_append]
    exact Or.inl (Or.inr this)
  · intro cfg prompt hne
    unfold handleApplyAi
    simp only [if_neg hne]
    rfl

theorem claim_C9_witness :
    (handleApplyAi defaultConfig "add atrium").narrative =
      defaultConfig.narrative ++ "\n\nPrompt: " ++ ⟨trimChars "add atrium".data⟩ :=
  claim_C9_newline_passthrough.2.2.2.2 defaultConfig "add atrium" (by decide)

theorem leb_refl (a : JsNumber) : leb a a = true := by
  simp [leb]

theorem leb_of_not_leb {a b : JsNumber} (h : leb a b = false) : leb b a = true := by
  simp only [leb, decide_eq_false_iff_not, not_le] at h
  simp only [leb, decide_eq_true_eq]
  exact le_of_lt h

theorem clamp_between (v lo hi : JsNumber) (h : leb lo hi = true) :
    leb lo (clamp v lo hi) = true ∧ leb (clamp v lo hi) hi = true := by
  unfold clamp mathMin mathMax
  have hM : leb lo (if leb v lo then lo else v) = true := by
    cases h1 : leb v lo with
    | true => simp [leb_refl]
    | false => simp [leb_of_not_leb h1]
  cases h2 : leb (if leb v lo then lo else v) hi with
  | true => simp only [if_true]; exact ⟨hM, h2⟩
  | false => simp only [Bool.false_eq_true, if_false]; exact ⟨h, leb_refl hi⟩

theorem clamp_eq_or (v lo hi : JsNumber) :
    clamp v lo hi = v ∨ clamp v lo hi = lo ∨ clamp v lo hi = hi := by
  unfold clamp mathMin mathMax
  cases h1 : leb v lo with
  | true =>
    cases h2 : leb lo hi with
    | true => simp [h1, h2]
    | false => simp [h1, h2]
  | false =>
    cases h2 : leb v hi with
    | true => simp [h1, h2]
    | false => simp [h1, h2]

theorem leb_trans {a b c : JsNumber} (ha : 0 < a.den) (hb : 0 < b.den) (hc : 0 < c.den)
    (h1 : leb a b = true) (h2 : leb b c = true) : leb a c = true := by
  simp only [leb, decide_eq_true_eq] at h1 h2 ⊢
  have H1 : a.num * b.den * c.den ≤ b.num * a.den * c.den :=
    mul_le_mul_of_nonneg_right h1 hc.le
  have H2 : b.num * a.den * c.den ≤ c.num * b.den * a.den := by
    calc b.num * a.den * c.den = b.num * c.den * a.den := by ring
    _ ≤ c.num * b.den * a.den := mul_le_mul_of_nonneg_right h2 ha.le
  have H3 : a.num * c.den * b.den ≤ c.num * a.den * b.den := by
    calc a.num * c.den * b.den = a.num * b.den * c.den := by ring
    _ ≤ c.num * b.den * a.den := le_trans H1 H2
    _ = c.num * a.den * b.den := by ring
  exact le_of_mul_le_mul_right H3 hb

theorem trigWidth_floors (n : List Char) (cur : BuildingConfig)
    (s : ConfigOverlay × List String) : (trigWidth n cur s).1.floors = s.1.floors := by
  unfold trigWidth
  cases findDim ["wide".data] n <;> rfl

theorem trigDepth_floors (n : List Char) (cur : BuildingConfig)
    (s : ConfigOverlay × List String) : (trigDepth n cur s).1.floors = s.1.floors := by
  unfold trigDepth
  cases findDim ["deep".data, "depth".data] n <;> rfl

theorem trigSlender_floors (n : List Char) (cur : BuildingConfig)
    (s : ConfigOverlay × List String) : (trigSlender n cur s).1.floors = s.1.floors := by
  unfold trigSlender
  split <;> rfl

theorem trigAtrium_floors (n : List Char) (cur : BuildingConfig)
    (s : ConfigOverlay × List String) : (trigAtrium n cur s).1.floors = s.1.floors := by
  unfold trigAtrium
  split <;> rfl

theorem trigPodium_floors (n : List Char) (cur : BuildingConfig)
    (s : ConfigOverlay × List String) : (trigPodium n cur s).1.floors = s.1.floors := by
  unfold trigPodium
  split <;> rfl

theorem trigGarden_floors (n : List Char) (cur : BuildingConfig)
    (s : ConfigOverlay × List String) : (trigGarden n cur s).1.floors = s.1.floors := by
  unfold trigGarden
  split <;> rfl

theorem trigSolar_floors (n : List Char) (cur : BuildingConfig)
    (s : ConfigOverlay × List String) : (trigSolar n cur s).1.floors = s.1.floors := by
  unfold trigSolar
  split <;> rfl

theorem trigBalcony_floors (n : List Char) (cur : BuildingConfig)
    (s : ConfigOverlay × List String) : (trigBalcony n cur s).1.floors = s.1.floors := by
  unfold trigBalcony
  split <;> rfl

theorem trigFacade_floors (n : List Char) (cur : BuildingConfig)
    (s : ConfigOverlay × List String) : (trigFacade n cur s).1.floors = s.1.floors := by
  unfold trigFacade
  split
  · rfl
  · split
    · rfl
    · split <;> rfl

theorem trigShelves_floors (n : List Char) (cur : BuildingConfig)
    (s : ConfigOverlay × List String) : (trigShelves n cur s).1.floors = s.1.floors := by
  unfold trigShelves
  split <;> rfl

theorem trigRoof_floors (n : List Char) (cur : BuildingConfig)
    (s : ConfigOverlay × List String) : (trigRoof n cur s).1.floors = s.1.floors := by
  unfold trigRoof
  split
  · rfl
  · split
    · rfl
    · split <;> rfl

theorem trigLobby_floors (n : List Char) (cur : BuildingConfig)
    (s : ConfigOverlay × List String) : (trigLobby n cur s).1.floors = s.1.floors := by
  unfold trigLobby
  split <;> rfl

theorem trigUnits_floors (n : List Char) (cur : BuildingConfig)
    (s : ConfigOverlay × List String) : (trigUnits n cur s).1.floors = s.1.floors := by
  unfold trigUnits
  cases findUnits n <;> rfl

theorem core_floors_of_ne (prompt : String) (cur : BuildingConfig)
    (h : (toLowerChars (trimChars prompt.data)).isEmpty = false) :
    (applyAiInferenceCore prompt cur).1.floors =
      (trigFloors (toLowerChars (trimChars prompt.data)) cur ({}, [])).1.floors := by
  unfold applyAiInferenceCore
  simp only [h, Bool.false_eq_true, if_false]
  rw [trigUnits_floors, trigLobby_floors, trigRoof_floors, trigShelves_floors,
    trigFacade_floors, trigBalcony_floors, trigSolar_floors, trigGarden_floors,
    trigPodium_floors, trigAtrium_floors, trigSlender_floors, trigDepth_floors,
    trigWidth_floors]

theorem core_floors_of_empty (prompt : String) (cur : BuildingConfig)
    (h : (toLowerChars (trimChars prompt.data)).isEmpty = true) :
    (applyAiInferenceCore prompt cur).1.floors = none := by
  unfold applyAiInferenceCore
  simp only [h, if_true]

theorem trigFloors_explicit (n : List Char) (cur : BuildingConfig)
    (s : ConfigOverlay × List String) (k : Nat) (h : findFloor n = some k) :
    (trigFloors n cur s).1.floors = some (clamp (k : JsNumber) 1 80) := by
  unfold trigFloors
  rw [h]

theorem trigFloors_supertall (n : List Char) (cur : BuildingConfig)
    (s : ConfigOverlay × List String) (h1 : findFloor n = none)
    (h2 : containsSub "supertall".data n = true) :
    (trigFloors n cur s).1.floors = some (clamp (cur.floors + 40) 30 120) := by
  unfold trigFloors
  rw [h1]
  simp only [h2, if_true]

theorem natCast_den (k : Nat) : ((k : JsNumber)).den = 1 := rfl

theorem add_den (a b : JsNumber) : (a + b).den = a.den * b.den := rfl

theorem trigFloors_none (n : List Char) (cur : BuildingConfig)
    (s : ConfigOverlay × List String) (h1 : findFloor n = none) :
    (trigFloors n cur s).1.floors =
      (if containsSub "supertall".data n then some (clamp (cur.floors + 40) 30 120)
        else if containsSub "tall".data n then some (clamp (cur.floors + 8) 6 80)
        else if containsSub "low-rise".data n || containsSub "mid-rise".data n then
          some (clamp cur.floors 4 12)
        else s.1.floors) := by
  unfold trigFloors
  rw [h1]
  split_ifs <;> rfl

theorem trigFloors_range (n : List Char) (cur : BuildingConfig)
    (hden : 0 < cur.floors.den) (f : JsNumber)
    (h : (trigFloors n cur ({}, [])).1.floors = some f) :
    0 < f.den ∧ leb 1 f = true ∧ leb f 120 = true := by
  have bounds : ∀ v lo hi : JsNumber, 0 < v.den → 0 < lo.den → 0 < hi.den →
      leb lo hi = true → leb 1 lo = true → leb hi 120 = true →
      0 < (clamp v lo hi).den ∧ leb 1 (clamp v lo hi) = true ∧
        leb (clamp v lo hi) 120 = true := by
    intro v lo hi hv hlo hhi hlohi h1lo hhi120
    have hcden : 0 < (clamp v lo hi).den := by
      rcases clamp_eq_or v lo hi with hc | hc | hc <;> rw [hc] <;> assumption
    have hb := clamp_between v lo hi hlohi
    refine ⟨hcden, ?_, ?_⟩
    · exact leb_trans (by decide) hlo hcden h1lo hb.1
    · exact leb_trans hcden hhi (by decide) hb.2 hhi120
  cases hf : findFloor n with
  | some k =>
    rw [trigFloors_explicit n cur ({}, []) k hf] at h
    injection h with h'
    subst h'
    exact bounds _ _ _ (by exact Int.zero_lt_one) (by decide) (by decide)
      (by decide) (by decide) (by decide)
  | none =>
    rw [trigFloors_none n cur ({}, []) hf] at h
    split_ifs at h
    · injection h with h'
      subst h'
      exact bounds _ _ _ (by show 0 < cur.floors.den * 1; simpa using hden)
        (by decide) (by decide) (by decide) (by decide) (by decide)
    · injection h with h'
      subst h'
      exact bounds _ _ _ (by show 0 < cur.floors.den * 1; simpa using hden)
        (by decide) (by decide) (by decide) (by decide) (by decide)
    · injection h with h'
      subst h'
      exact bounds _ _ _ hden (by decide) (by decide) (by decide) (by decide) (by decide)

/-- C2 counterexample: `updateConfig` stores 500 and 0 verbatim in the floor
count — not the field's maximum (120 per the spec's range, 80 per the form)
nor its minimum (1 per the spec, 3 per the form). -/
theorem claim_C2_counterexample :
    (updateConfig defaultConfig { floors := some 500 }).floors = 500 ∧
    (updateConfig defaultConfig { floors := some 0 }).floors = 0 ∧
    (500 : JsNumber) ≠ 120 ∧ (500 : JsNumber) ≠ 80 ∧
    (0 : JsNumber) ≠ 1 ∧ (0 : JsNumber) ≠ 3 := by
  decide

/-- C2 (amended): the merge point `updateConfig` applies no clamping — it
stores overlay values verbatim, so a floor count written as 500 stays 500 and
one written as 0 stays 0; only Intent-Mapper-derived values are clamped, at
inference time inside `applyAiInference`, each to its trigger's range, so any
inferred floor count lies within `[1, 120]`. -/
theorem claim_C2_clamping_only_at_inference :
    (∀ (cfg : BuildingConfig) (p : ConfigOverlay) (v : JsNumber),
      p.floors = some v → (updateConfig cfg p).floors = v) ∧
    (∀ (prompt : String) (cfg : BuildingConfig) (f : JsNumber),
      0 < cfg.floors.den →
      (applyAiInference prompt cfg).updates.floors = some f →
      0 < f.den ∧ leb 1 f = true ∧ leb f 120 = true) := by
  constructor
  · intro cfg p v h
    show p.floors.getD cfg.floors = v
    rw [h]
    rfl
  · intro prompt cfg f hden h
    have hcore : (applyAiInferenceCore prompt cfg).1.floors = some f := h
    cases he : (toLowerChars (trimChars prompt.data)).isEmpty with
    | true =>
      rw [core_floors_of_empty prompt cfg he] at hcore
      cases hcore
    | false =>
      rw [core_floors_of_ne prompt cfg he] at hcore
      exact trigFloors_range _ cfg hden f hcore

theorem claim_C2_witness :
    (updateConfig defaultConfig { floors := some 500 }).floors = 500 ∧
    (0 < (12 : JsNumber).den ∧ leb 1 (12 : JsNumber) = true ∧
      leb (12 : JsNumber) 120 = true) :=
  ⟨claim_C2_clamping_only_at_inference.1 defaultConfig { floors := some 500 } 500 rfl,
    claim_C2_clamping_only_at_inference.2 "a mid-rise tower" defaultConfig 12
      (by decide) (by decide)⟩

/-- C8: on "a mid-rise timber tower with generous balconies and green roof"
the intent mapper produces exactly the overlay with floors clamped into
[4,12] (= 12), facade pattern `offset` with the timber palette, balcony
frequency `alternate`, rooftop garden enabled, and a non-empty summary made
of exactly the four change descriptions in trigger order; moreover an
explicit `N floors/stories` match always takes precedence over the
qualitative floor triggers, and `supertall` over `tall` (which it contains
as a substring). -/
theorem claim_C8_intent_mapping :
    (applyAiInference midRisePrompt defaultConfig).updates = midRiseOverlay ∧
    midRiseOverlay.floors = some (clamp defaultConfig.floors 4 12) ∧
    (applyAiInference midRisePrompt defaultConfig).summary =
      "Shaped tower to mid-rise scale. Reserved rooftop for green space. Reconfigured balcony rhythm. Shifted to warm timber articulation." ∧
    (applyAiInferenceCore midRisePrompt defaultConfig).2 =
      ["Shaped tower to mid-rise scale.", "Reserved rooftop for green space.",
        "Reconfigured balcony rhythm.", "Shifted to warm timber articulation."] ∧
    (applyAiInference midRisePrompt defaultConfig).summary ≠ "" ∧
    (∀ (prompt : String) (cfg : BuildingConfig) (k : Nat),
      findFloor (toLowerChars (trimChars prompt.data)) = some k →
      (applyAiInference prompt cfg).updates.floors = some (clamp (k : JsNumber) 1 80)) ∧
    (∀ (prompt : String) (cfg : BuildingConfig),
      findFloor (toLowerChars (trimChars prompt.data)) = none →
      containsSub "supertall".data (toLowerChars (trimChars prompt.data)) = true →
      (applyAiInference prompt cfg).updates.floors =
        some (clamp (cfg.floors + 40) 30 120)) := by
  refine ⟨by decide, by decide, by decide, by decide, by decide, ?_, ?_⟩
  · intro prompt cfg k h
    have hne : (toLowerChars (trimChars prompt.data)).isEmpty = false := by
      cases hl : toLowerChars (trimChars prompt.data) with
      | nil => rw [hl] at h; exact Option.noConfusion h
      | cons c t => rfl
    show (applyAiInferenceCore prompt cfg).1.floors = _
    rw [core_floors_of_ne prompt cfg hne]
    exact trigFloors_explicit _ cfg ({}, []) k h
  · intro prompt cfg h1 h2
    have hne : (toLowerChars (trimChars prompt.data)).isEmpty = false := by
      cases hl : toLowerChars (trimChars prompt.data) with
      | nil => rw [hl] at h2; exact Bool.noConfusion h2
      | cons c t => rfl
    show (applyAiInferenceCore prompt cfg).1.floors = _
    rw [core_floors_of_ne prompt cfg hne]
    exact trigFloors_supertall _ cfg ({}, []) h1 h2

theorem claim_C8_witness :
    (applyAiInference "25 floors" defaultConfig).updates.floors =
      some (clamp ((25 : Nat) : JsNumber) 1 80) :=
  claim_C8_intent_mapping.2.2.2.2.2.1 "25 floors" defaultConfig 25 (by decide)

/-- C3: balcony placement in the emitted build loop — a cell is placed iff
the floor index is positive (ground floor excluded), below the floor count,
balcony depth exceeds 0.05, and the frequency policy admits the column:
`every` takes all columns below `max(3, ⌊width/module⌋)` on every such
floor, `alternate` the same columns on even-indexed floors only, `corners`
exactly columns 0 and last of `max(2, module count)`; with `corners`,
module 3.2 and width 38 the column count is 11 and balconies sit only at
columns 0 and 10, never on floor 0. -/
theorem claim_C3_balcony_policy :
    (∀ (cfg : BuildingConfig) (level col : Nat),
      ((level, col) ∈ balconyCells cfg ↔
        (0 < level ∧ level < (floorJs cfg.floors).toNat ∧
          ltb (0.05 : JsNumber) cfg.balconyDepth = true ∧
          ((cfg.balconyFrequency = BalconyFrequency.every ∧ col < moduleCount cfg) ∨
            (cfg.balconyFrequency = BalconyFrequency.alternate ∧ level % 2 = 0 ∧
              col < moduleCount cfg) ∨
            (cfg.balconyFrequency = BalconyFrequency.corners ∧
              (col = 0 ∨ col = max 2 (moduleCount cfg) - 1)))))) ∧
    moduleCount cornersExample = 11 ∧
    max 2 (moduleCount cornersExample) = 11 ∧
    (∀ lc ∈ balconyCells cornersExample, (lc.2 = 0 ∨ lc.2 = 10) ∧ lc.1 ≠ 0) ∧
    (1, 0) ∈ balconyCells cornersExample ∧ (1, 10) ∈ balconyCells cornersExample := by
  refine ⟨?_, by decide, by decide, by decide, by decide, by decide⟩
  intro cfg level col
  constructor
  · intro h
    simp only [balconyCells, List.mem_flatMap, List.mem_range] at h
    obtain ⟨l, hl, hmem⟩ := h
    split at hmem
    case isTrue hC =>
      split at hmem
      case isTrue hE =>
        rw [List.mem_map] at hmem
        obtain ⟨c, hc, heq⟩ := hmem
        rw [List.mem_range] at hc
        obtain ⟨rfl, rfl⟩ := Prod.mk.inj heq
        refine ⟨hC.2.1, hl, hC.2.2, ?_⟩
        rcases hE with hE | ⟨hA, hpar⟩
        · exact Or.inl ⟨hE, hc⟩
        · exact Or.inr (Or.inl ⟨hA, hpar, hc⟩)
      case isFalse hE =>
        split at hmem
        case isTrue hK =>
          simp only [List.mem_cons, List.not_mem_nil, or_false] at hmem
          rcases hmem with heq | heq <;>
            · obtain ⟨rfl, rfl⟩ := Prod.mk.inj heq
              exact ⟨hC.2.1, hl, hC.2.2, Or.inr (Or.inr ⟨hK, by simp⟩)⟩
        case isFalse hK => exact absurd hmem (List.not_mem_nil _)
    case isFalse hC => exact absurd hmem (List.not_mem_nil _)
  · rintro ⟨hpos, hlt, hdepth, hcase⟩
    simp only [balconyCells, List.mem_flatMap, List.mem_range]
    refine ⟨level, hlt, ?_⟩
    have hfreq_ne : cfg.balconyFrequency ≠ BalconyFrequency.none := by
      rcases hcase with ⟨h, _⟩ | ⟨h, _, _⟩ | ⟨h, _⟩ <;> simp [h]
    rw [if_pos ⟨hfreq_ne, hpos, hdepth⟩]
    rcases hcase with ⟨hE, hcol⟩ | ⟨hA, hpar, hcol⟩ | ⟨hK, hcol⟩
    · rw [if_pos (Or.inl hE)]
      exact List.mem_map.mpr ⟨col, List.mem_range.mpr hcol, rfl⟩
    · rw [if_pos (Or.inr ⟨hA, hpar⟩)]
      exact List.mem_map.mpr ⟨col, List.mem_range.mpr hcol, rfl⟩
    · have hnE : ¬(cfg.balconyFrequency = BalconyFrequency.every ∨
          (cfg.balconyFrequency = BalconyFrequency.alternate ∧ level % 2 = 0)) := by
        simp [hK]
      rw [if_neg hnE, if_pos hK]
      rcases hcol with rfl | rfl
      · exact List.mem_cons_self _ _
      · exact List.mem_cons_of_mem _ (List.mem_singleton.mpr rfl)

theorem claim_C3_witness :
    (((1, 10) : Nat × Nat).2 = 0 ∨ ((1, 10) : Nat × Nat).2 = 10) ∧
      ((1, 10) : Nat × Nat).1 ≠ 0 :=
  claim_C3_balcony_policy.2.2.2.1 (1, 10) (by decide)

theorem hexVal_le (c : Char) : hexVal c ≤ 15 := by
  unfold hexVal
  split_ifs with h1 h2 h3 <;> (simp_all [Bool.and_eq_true, decide_eq_true_eq]; try omega)

theorem parseIntHex_pair (x y : Char) (hx : isHexDig x = true) (hy : isHexDig y = true) :
    parseIntHex [x, y] = some (16 * hexVal x + hexVal y) := by
  simp only [parseIntHex, List.takeWhile, hx, hy, List.isEmpty_cons, List.foldl,
    Bool.false_eq_true, if_false, Option.some.injEq]
  omega

theorem channelInRange_of_le (v : Nat) (hv : v ≤ 255) : channelInRange v := by
  have h0num : (0 : JsNumber).num = 0 := rfl
  have h0den : (0 : JsNumber).den = 1 := rfl
  have h1num : (1 : JsNumber).num = 1 := rfl
  have h1den : (1 : JsNumber).den = 1 := rfl
  unfold channelInRange JsNumber.div leb
  constructor <;> (simp [h0num, h0den, h1num, h1den]; try omega)

/-- C10: on a `#`-stripped input of exactly 3 or 6 hex digits every parsed
channel is a number at most 255, so each emitted channel value `v/255` lies
in `[0, 1]`; the empty input falls back to the `["00","00","00"]` chunks and
emits `(0.0000, 0.0000, 0.0000, 1.0)`; outside those shapes a channel can be
missing (`none`, printed `NaN`), e.g. the third channel of `"abcd"`. -/
theorem claim_C10_hex_totality :
    (∀ s : String,
      ((removeFirst '#' s.data).length = 3 ∨ (removeFirst '#' s.data).length = 6) →
      (∀ c ∈ removeFirst '#' s.data, isHexDig c = true) →
      ∃ r g b, hexToRgb s = (some r, some g, some b) ∧
        r ≤ 255 ∧ g ≤ 255 ∧ b ≤ 255 ∧
        channelInRange r ∧ channelInRange g ∧ channelInRange b) ∧
    colorToPythonTuple "" = "(0.0000, 0.0000, 0.0000, 1.0)" ∧
    hexToRgb "" = (some 0, some 0, some 0) ∧
    (hexToRgb "abcd").2.2 = none ∧
    normalizeChannel none = ['N', 'a', 'N'] := by
  refine ⟨?_, by decide, by decide, by decide, by decide⟩
  intro s hlen hhex
  have hrgb : hexToRgb s =
      (let cleaned := removeFirst '#' s.data
       let chunk : List (List Char) :=
         if cleaned.length = 3 then cleaned.map (fun c => [c, c])
         else if cleaned.isEmpty then [['0', '0'], ['0', '0'], ['0', '0']]
         else chunkPairs cleaned
       let parsed := chunk.map parseIntHex
       ((parsed.get? 0).join, (parsed.get? 1).join, (parsed.get? 2).join)) := rfl
  generalize hcl : removeFirst '#' s.data = cl at hlen hhex hrgb
  rcases cl with _ | ⟨a, _ | ⟨b, _ | ⟨c, _ | ⟨d, _ | ⟨e, _ | ⟨f', _ | ⟨g', t⟩⟩⟩⟩⟩⟩⟩ <;>
    simp only [List.length_nil, List.length_cons] at hlen <;> try omega
  · have ha := hhex a (by simp)
    have hb := hhex b (by simp)
    have hc := hhex c (by simp)
    rw [hrgb]
    simp only [List.length_cons, List.length_nil, if_pos rfl]
    refine ⟨16 * hexVal a + hexVal a, 16 * hexVal b + hexVal b, 16 * hexVal c + hexVal c,
      ?_, ?_, ?_, ?_, ?_, ?_, ?_⟩
    · simp [List.map_cons, parseIntHex_pair a a ha ha, parseIntHex_pair b b hb hb,
        parseIntHex_pair c c hc hc, List.get?]
    · have := hexVal_le a; omega
    · have := hexVal_le b; omega
    · have := hexVal_le c; omega
    · exact channelInRange_of_le _ (by have := hexVal_le a; omega)
    · exact channelInRange_of_le _ (by have := hexVal_le b; omega)
    · exact channelInRange_of_le _ (by have := hexVal_le c; omega)
  · have ha := hhex a (by simp)
    have hb := hhex b (by simp)
    have hc := hhex c (by simp)
    have hd := hhex d (by simp)
    have he := hhex e (by simp)
    have hf := hhex f' (by simp)
    rw [hrgb]
    simp only [List.length_cons, List.length_nil]
    rw [if_neg (by omega), if_neg (by simp)]
    refine ⟨16 * hexVal a + hexVal b, 16 * hexVal c + hexVal d, 16 * hexVal e + hexVal f',
      ?_, ?_, ?_, ?_, ?_, ?_, ?_⟩
    · simp [chunkPairs, List.map_cons, parseIntHex_pair a b ha hb,
        parseIntHex_pair c d hc hd, parseIntHex_pair e f' he hf, List.get?]
    · have h1 := hexVal_le a; have h2 := hexVal_le b; omega
    · have h1 := hexVal_le c; have h2 := hexVal_le d; omega
    · have h1 := hexVal_le e; have h2 := hexVal_le f'; omega
    · exact channelInRange_of_le _ (by have h1 := hexVal_le a; have h2 := hexVal_le b; omega)
    · exact channelInRange_of_le _ (by have h1 := hexVal_le c; have h2 := hexVal_le d; omega)
    · exact channelInRange_of_le _ (by have h1 := hexVal_le e; have h2 := hexVal_le f'; omega)

theorem claim_C10_witness :
    ∃ r g b, hexToRgb "#a1b2c3" = (some r, some g, some b) ∧
      r ≤ 255 ∧ g ≤ 255 ∧ b ≤ 255 ∧
      channelInRange r ∧ channelInRange g ∧ channelInRange b :=
  claim_C10_hex_totality.1 "#a1b2c3" (Or.inr (by decide)) (by decide)
